import Mathlib

/-!
Shallow embedding of `src/bloomd/background.c` (PUNCH-Cyber/bloomd): the three
background maintenance threads (flush, cold unmap, memory check), their shared
tick and checkpoint discipline, and the thread start functions.

Each worker's interaction with the filter manager (the registry) is modelled as
an event trace, one inner list of events per iteration of the worker's while
loop.  The `*should_run` cancellation flag is written once (1 to 0) by the
lifecycle controller and never reset, so a worker's view of it is fully
described by the number `r` of reads that still return 1: reads `0..r-1` see
the flag up, all later reads see it down.  Unsigned C counters (`ticks`,
`cmds`) are modelled as naturals reduced modulo 2^32 at each increment.
-/

/-- Sleep between loop ticks, in microseconds (`PERIODIC_TIME_USEC`). -/
def PERIODIC_TIME_USEC : Nat := 250000

/-- Seconds-to-ticks conversion (the `SEC_TO_TICKS` macro): one tick per
250ms wake, hence `sec * 4`. -/
def SEC_TO_TICKS (sec : Nat) : Nat := sec * 4

/-- Number of per-filter operations between forced mid-pass client
checkpoints (`PERIODIC_CHECKPOINT`). -/
def PERIODIC_CHECKPOINT : Nat := 16

/-- Modulus of C `unsigned int` arithmetic, used for the `ticks` and `cmds`
counters. -/
def UINT_MAX_SUCC : Nat := 4294967296

/-- One `++ticks` step of the unsigned tick counter. -/
def tickSucc (t : Nat) : Nat := (t + 1) % UINT_MAX_SUCC

/-- One observable step of a worker: a call into the filter manager, or a
read of the shared `*should_run` flag. -/
inductive REvent where
  | readTop (v : Bool)
  | readGate (v : Bool)
  | checkpoint
  | listFilters (ok : Bool)
  | listCold (ok : Bool)
  | flushFilter (name : String)
  | unmapFilter (name : String)
  | flushUnmapFilter (name : String)
  | cleanupList
  deriving DecidableEq, Repr

/-- The inner per-filter loop shared by `flush_thread_main` and
`unmap_thread_main`: `act` is the per-filter registry call
(`filtmgr_flush_filter` resp. `filtmgr_unmap_filter`), `cmds` the unsigned
command counter; after every `PERIODIC_CHECKPOINT` commands
(`!(++cmds % PERIODIC_CHECKPOINT)`) a mid-pass checkpoint is issued. -/
def passAux (act : String → REvent) : List String → Nat → List REvent
  | [], _ => []
  | f :: rest, cmds =>
    act f ::
      ((if (cmds + 1) % UINT_MAX_SUCC % PERIODIC_CHECKPOINT = 0 then
          [REvent.checkpoint] else []) ++
        passAux act rest ((cmds + 1) % UINT_MAX_SUCC))

/-- Event trace of `flush_thread_main`'s while loop, one inner list per loop
iteration.  `r` is the number of reads of `*should_run` that still return 1;
`ticks` is the unsigned tick counter; `e` indexes successive
`filtmgr_list_filters` calls and `enum e` gives their outcome (`none` models a
nonzero return code).  The `&&` in the C interval test short circuits, so the
gate read of `*should_run` only happens when the tick test passes. -/
def flushLoop (I : Nat) (enum : Nat → Option (List String)) (r ticks e : Nat) :
    List (List REvent) :=
  match r with
  | 0 => [[REvent.readTop false]]
  | r + 1 =>
    if tickSucc ticks % SEC_TO_TICKS I = 0 then
      match r with
      | 0 =>
        [REvent.readTop true, REvent.checkpoint, REvent.readGate false] ::
          [[REvent.readTop false]]
      | r' + 1 =>
        match enum e with
        | none =>
          [REvent.readTop true, REvent.checkpoint, REvent.readGate true,
              REvent.listFilters false] ::
            flushLoop I enum r' (tickSucc ticks) (e + 1)
        | some l =>
          ([REvent.readTop true, REvent.checkpoint, REvent.readGate true,
              REvent.listFilters true] ++
            passAux REvent.flushFilter l 0 ++ [REvent.cleanupList]) ::
            flushLoop I enum r' (tickSucc ticks) (e + 1)
    else
      [REvent.readTop true, REvent.checkpoint] ::
        flushLoop I enum r (tickSucc ticks) e

/-- Event trace of `unmap_thread_main`'s while loop; identical to `flushLoop`
except that the enumeration is `filtmgr_list_cold_filters` and the per-filter
call is `filtmgr_unmap_filter`. -/
def unmapLoop (I : Nat) (enum : Nat → Option (List String)) (r ticks e : Nat) :
    List (List REvent) :=
  match r with
  | 0 => [[REvent.readTop false]]
  | r + 1 =>
    if tickSucc ticks % SEC_TO_TICKS I = 0 then
      match r with
      | 0 =>
        [REvent.readTop true, REvent.checkpoint, REvent.readGate false] ::
          [[REvent.readTop false]]
      | r' + 1 =>
        match enum e with
        | none =>
          [REvent.readTop true, REvent.checkpoint, REvent.readGate true,
              REvent.listCold false] ::
            unmapLoop I enum r' (tickSucc ticks) (e + 1)
        | some l =>
          ([REvent.readTop true, REvent.checkpoint, REvent.readGate true,
              REvent.listCold true] ++
            passAux REvent.unmapFilter l 0 ++ [REvent.cleanupList]) ::
            unmapLoop I enum r' (tickSucc ticks) (e + 1)
    else
      [REvent.readTop true, REvent.checkpoint] ::
        unmapLoop I enum r (tickSucc ticks) e

/-- The eviction loop of `memory_check_thread_main`
(`while (current_memory > safe_memory) { ... }`).  `rss` gives the outcome of
successive `getCurrentRSS()` calls, indexed by the global sample counter `s`;
`cur` is `current_memory`, `cmds` the unsigned command counter.  The loop body
dereferences `node` without checking it against NULL, so an exhausted filter
list with `current_memory` still above `safe_memory` is undefined behaviour,
modelled as `none`.  On normal exit it returns the events of the loop and the
next sample index. -/
def evictLoop (safe : Nat) (rss : Nat → Nat) :
    List String → Nat → Nat → Nat → Option (List REvent × Nat)
  | filters, cur, s, cmds =>
    if safe < cur then
      match filters with
      | [] => none
      | f :: rest =>
        match evictLoop safe rss rest (rss s) (s + 1) ((cmds + 1) % UINT_MAX_SUCC) with
        | none => none
        | some (evs, s') =>
          some (REvent.flushUnmapFilter f ::
            ((if (cmds + 1) % UINT_MAX_SUCC % PERIODIC_CHECKPOINT = 0 then
                [REvent.checkpoint] else []) ++ evs), s')
    else
      some ([], s)

/-- Event trace of `memory_check_thread_main`'s while loop.  `max_memory` and
`safe_memory` are the thresholds computed once at thread start; `rss` gives the
outcome of successive `getCurrentRSS()` calls and `s` is the sample counter;
`e`/`enum` are as in `flushLoop`.  The trace is `none` when an eviction pass
runs off the end of the filter list (the NULL dereference in the C loop). -/
def memLoop (I max_memory safe_memory : Nat) (rss : Nat → Nat)
    (enum : Nat → Option (List String)) (r ticks e s : Nat) :
    Option (List (List REvent)) :=
  match r with
  | 0 => some [[REvent.readTop false]]
  | r + 1 =>
    if tickSucc ticks % SEC_TO_TICKS I = 0 then
      match r with
      | 0 =>
        some ([REvent.readTop true, REvent.checkpoint, REvent.readGate false] ::
          [[REvent.readTop false]])
      | r' + 1 =>
        if max_memory < rss s then
          match enum e with
          | none =>
            (memLoop I max_memory safe_memory rss enum r' (tickSucc ticks)
                (e + 1) (s + 1)).map
              (fun tr =>
                [REvent.readTop true, REvent.checkpoint, REvent.readGate true,
                  REvent.listFilters false] :: tr)
          | some l =>
            match evictLoop safe_memory rss l (rss s) (s + 1) 0 with
            | none => none
            | some (evs, s') =>
              (memLoop I max_memory safe_memory rss enum r' (tickSucc ticks)
                  (e + 1) s').map
                (fun tr =>
                  ([REvent.readTop true, REvent.checkpoint, REvent.readGate true,
                    REvent.listFilters true] ++ evs ++ [REvent.cleanupList]) :: tr)
        else
          (memLoop I max_memory safe_memory rss enum r' (tickSucc ticks)
              e (s + 1)).map
            (fun tr =>
              [REvent.readTop true, REvent.checkpoint, REvent.readGate true] :: tr)
    else
      (memLoop I max_memory safe_memory rss enum r (tickSucc ticks) e s).map
        (fun tr => [REvent.readTop true, REvent.checkpoint] :: tr)

/-- Configuration fields consumed by `background.c`.  The interval fields are
C `int`s and may be negative. -/
structure bloom_config where
  flush_interval : Int
  cold_interval : Int
  memory_check_interval : Int
  max_memory_percent : Int
  safe_memory_percent : Int

/-- Identifier of the thread main function handed to `pthread_create`. -/
inductive BgThread where
  | flushThread
  | unmapThread
  | memCheckThread
  deriving DecidableEq, Repr

/-- Model of `start_flush_thread`: returns the started thread when the
function returns 1 (interval strictly positive), `none` when it returns 0
without any scheduling. -/
def start_flush_thread (config : bloom_config) : Option BgThread :=
  if config.flush_interval ≤ 0 then none else some BgThread.flushThread

/-- Model of `start_cold_unmap_thread`. -/
def start_cold_unmap_thread (config : bloom_config) : Option BgThread :=
  if config.cold_interval ≤ 0 then none else some BgThread.unmapThread

/-- Model of `start_memory_check_thread`. -/
def start_memory_check_thread (config : bloom_config) : Option BgThread :=
  if config.memory_check_interval ≤ 0 then none else some BgThread.memCheckThread

/-- Is this event a client checkpoint call. -/
def isCkpt : REvent → Bool
  | REvent.checkpoint => true
  | _ => false

/-- Number of client checkpoint calls in an event list. -/
def countCkpt (evs : List REvent) : Nat := evs.countP (fun ev => isCkpt ev)

/-- Is this event an enumeration call into the registry. -/
def isEnumCall : REvent → Bool
  | REvent.listFilters _ => true
  | REvent.listCold _ => true
  | _ => false

/-- Is this event a flush, unmap, flush-and-unmap or release call. -/
def isMutCall : REvent → Bool
  | REvent.flushFilter _ => true
  | REvent.unmapFilter _ => true
  | REvent.flushUnmapFilter _ => true
  | REvent.cleanupList => true
  | _ => false

/-- Is this event part of an interval-triggered maintenance action. -/
def isActionCall (ev : REvent) : Bool := isEnumCall ev || isMutCall ev

/-- Is this event an observation of the cancellation flag in the set state. -/
def isCancelRead : REvent → Bool
  | REvent.readTop false => true
  | REvent.readGate false => true
  | _ => false

/-- A loop iteration that begins with a positive `*should_run` read (a wake)
must issue a client checkpoint immediately after it. -/
def wakeHasCheckpoint : List REvent → Bool
  | REvent.readTop true :: rest =>
    match rest with
    | REvent.checkpoint :: _ => true
    | _ => false
  | _ => true

/-- Did this loop iteration observe the cancellation flag as set. -/
def entryObservedCancel (w : List REvent) : Bool := w.any isCancelRead

/-- Does this loop iteration contain any maintenance action call. -/
def entryHasAction (w : List REvent) : Bool := w.any isActionCall

/-- No loop iteration after one that observed cancellation contains any
enumeration, flush, unmap, flush-and-unmap or release call. -/
def noActionAfterCancel : List (List REvent) → Bool
  | [] => true
  | w :: rest =>
    (!entryObservedCancel w || rest.all fun w2 => !entryHasAction w2) &&
      noActionAfterCancel rest

/-- The trace ends with the loop-top read observing cancellation. -/
def endsWithExit : List (List REvent) → Bool
  | [] => false
  | [w] => decide (w = [REvent.readTop false])
  | _ :: w :: rest => endsWithExit (w :: rest)

/-- Names evicted by a memory-pressure eviction pass, in order. -/
def evictedNames (evs : List REvent) : List String :=
  evs.filterMap fun ev =>
    match ev with
    | REvent.flushUnmapFilter f => some f
    | _ => none

theorem flushLoop_zero (I : Nat) (enum : Nat → Option (List String)) (ticks e : Nat) :
    flushLoop I enum 0 ticks e = [[REvent.readTop false]] := rfl

theorem flushLoop_skip (I : Nat) (enum : Nat → Option (List String)) (r ticks e : Nat)
    (h : tickSucc ticks % SEC_TO_TICKS I ≠ 0) :
    flushLoop I enum (r + 1) ticks e =
      [REvent.readTop true, REvent.checkpoint] :: flushLoop I enum r (tickSucc ticks) e := by
  rw [flushLoop.eq_def]
  simp only [if_neg h]

theorem flushLoop_gateCancel (I : Nat) (enum : Nat → Option (List String)) (ticks e : Nat)
    (h : tickSucc ticks % SEC_TO_TICKS I = 0) :
    flushLoop I enum 1 ticks e =
      [[REvent.readTop true, REvent.checkpoint, REvent.readGate false],
       [REvent.readTop false]] := by
  show flushLoop I enum (0 + 1) ticks e = _
  rw [flushLoop.eq_def]
  simp only [if_pos h]

theorem flushLoop_fire_none (I : Nat) (enum : Nat → Option (List String)) (r ticks e : Nat)
    (h : tickSucc ticks % SEC_TO_TICKS I = 0) (henum : enum e = none) :
    flushLoop I enum (r + 2) ticks e =
      [REvent.readTop true, REvent.checkpoint, REvent.readGate true,
          REvent.listFilters false] ::
        flushLoop I enum r (tickSucc ticks) (e + 1) := by
  rw [flushLoop.eq_def]
  simp only [if_pos h, henum]

theorem flushLoop_fire_some (I : Nat) (enum : Nat → Option (List String)) (r ticks e : Nat)
    (l : List String) (h : tickSucc ticks % SEC_TO_TICKS I = 0) (henum : enum e = some l) :
    flushLoop I enum (r + 2) ticks e =
      ([REvent.readTop true, REvent.checkpoint, REvent.readGate true,
          REvent.listFilters true] ++
        passAux REvent.flushFilter l 0 ++ [REvent.cleanupList]) ::
        flushLoop I enum r (tickSucc ticks) (e + 1) := by
  rw [flushLoop.eq_def]
  simp only [if_pos h, henum]

theorem unmapLoop_zero (I : Nat) (enum : Nat → Option (List String)) (ticks e : Nat) :
    unmapLoop I enum 0 ticks e = [[REvent.readTop false]] := rfl

theorem unmapLoop_skip (I : Nat) (enum : Nat → Option (List String)) (r ticks e : Nat)
    (h : tickSucc ticks % SEC_TO_TICKS I ≠ 0) :
    unmapLoop I enum (r + 1) ticks e =
      [REvent.readTop true, REvent.checkpoint] :: unmapLoop I enum r (tickSucc ticks) e := by
  rw [unmapLoop.eq_def]
  simp only [if_neg h]

theorem unmapLoop_gateCancel (I : Nat) (enum : Nat → Option (List String)) (ticks e : Nat)
    (h : tickSucc ticks % SEC_TO_TICKS I = 0) :
    unmapLoop I enum 1 ticks e =
      [[REvent.readTop true, REvent.checkpoint, REvent.readGate false],
       [REvent.readTop false]] := by
  show unmapLoop I enum (0 + 1) ticks e = _
  rw [unmapLoop.eq_def]
  simp only [if_pos h]

theorem unmapLoop_fire_none (I : Nat) (enum : Nat → Option (List String)) (r ticks e : Nat)
    (h : tickSucc ticks % SEC_TO_TICKS I = 0) (henum : enum e = none) :
    unmapLoop I enum (r + 2) ticks e =
      [REvent.readTop true, REvent.checkpoint, REvent.readGate true,
          REvent.listCold false] ::
        unmapLoop I enum r (tickSucc ticks) (e + 1) := by
  rw [unmapLoop.eq_def]
  simp only [if_pos h, henum]

theorem unmapLoop_fire_some (I : Nat) (enum : Nat → Option (List String)) (r ticks e : Nat)
    (l : List String) (h : tickSucc ticks % SEC_TO_TICKS I = 0) (henum : enum e = some l) :
    unmapLoop I enum (r + 2) ticks e =
      ([REvent.readTop true, REvent.checkpoint, REvent.readGate true,
          REvent.listCold true] ++
        passAux REvent.unmapFilter l 0 ++ [REvent.cleanupList]) ::
        unmapLoop I enum r (tickSucc ticks) (e + 1) := by
  rw [unmapLoop.eq_def]
  simp only [if_pos h, henum]

theorem memLoop_zero (I mx sf : Nat) (rss : Nat → Nat) (enum : Nat → Option (List String))
    (ticks e s : Nat) :
    memLoop I mx sf rss enum 0 ticks e s = some [[REvent.readTop false]] := rfl

theorem memLoop_skip (I mx sf : Nat) (rss : Nat → Nat) (enum : Nat → Option (List String))
    (r ticks e s : Nat) (h : tickSucc ticks % SEC_TO_TICKS I ≠ 0) :
    memLoop I mx sf rss enum (r + 1) ticks e s =
      (memLoop I mx sf rss enum r (tickSucc ticks) e s).map
        (fun tr => [REvent.readTop true, REvent.checkpoint] :: tr) := by
  rw [memLoop.eq_def]
  simp only [if_neg h]

theorem memLoop_gateCancel (I mx sf : Nat) (rss : Nat → Nat)
    (enum : Nat → Option (List String)) (ticks e s : Nat)
    (h : tickSucc ticks % SEC_TO_TICKS I = 0) :
    memLoop I mx sf rss enum 1 ticks e s =
      some [[REvent.readTop true, REvent.checkpoint, REvent.readGate false],
            [REvent.readTop false]] := by
  show memLoop I mx sf rss enum (0 + 1) ticks e s = _
  rw [memLoop.eq_def]
  simp only [if_pos h]

theorem memLoop_fire_low (I mx sf : Nat) (rss : Nat → Nat)
    (enum : Nat → Option (List String)) (r ticks e s : Nat)
    (h : tickSucc ticks % SEC_TO_TICKS I = 0) (hlow : ¬ mx < rss s) :
    memLoop I mx sf rss enum (r + 2) ticks e s =
      (memLoop I mx sf rss enum r (tickSucc ticks) e (s + 1)).map
        (fun tr =>
          [REvent.readTop true, REvent.checkpoint, REvent.readGate true] :: tr) := by
  rw [memLoop.eq_def]
  simp only [if_pos h, if_neg hlow]

theorem memLoop_fire_enumFail (I mx sf : Nat) (rss : Nat → Nat)
    (enum : Nat → Option (List String)) (r ticks e s : Nat)
    (h : tickSucc ticks % SEC_TO_TICKS I = 0) (hhigh : mx < rss s) (henum : enum e = none) :
    memLoop I mx sf rss enum (r + 2) ticks e s =
      (memLoop I mx sf rss enum r (tickSucc ticks) (e + 1) (s + 1)).map
        (fun tr =>
          [REvent.readTop true, REvent.checkpoint, REvent.readGate true,
            REvent.listFilters false] :: tr) := by
  rw [memLoop.eq_def]
  simp only [if_pos h, if_pos hhigh, henum]

theorem memLoop_fire_evict (I mx sf : Nat) (rss : Nat → Nat)
    (enum : Nat → Option (List String)) (r ticks e s : Nat) (l : List String)
    (evs : List REvent) (s' : Nat)
    (h : tickSucc ticks % SEC_TO_TICKS I = 0) (hhigh : mx < rss s) (henum : enum e = some l)
    (hev : evictLoop sf rss l (rss s) (s + 1) 0 = some (evs, s')) :
    memLoop I mx sf rss enum (r + 2) ticks e s =
      (memLoop I mx sf rss enum r (tickSucc ticks) (e + 1) s').map
        (fun tr =>
          ([REvent.readTop true, REvent.checkpoint, REvent.readGate true,
            REvent.listFilters true] ++ evs ++ [REvent.cleanupList]) :: tr) := by
  rw [memLoop.eq_def]
  simp only [if_pos h, if_pos hhigh, henum, hev]

theorem memLoop_fire_crash (I mx sf : Nat) (rss : Nat → Nat)
    (enum : Nat → Option (List String)) (r ticks e s : Nat) (l : List String)
    (h : tickSucc ticks % SEC_TO_TICKS I = 0) (hhigh : mx < rss s) (henum : enum e = some l)
    (hev : evictLoop sf rss l (rss s) (s + 1) 0 = none) :
    memLoop I mx sf rss enum (r + 2) ticks e s = none := by
  rw [memLoop.eq_def]
  simp only [if_pos h, if_pos hhigh, henum, hev]

theorem countCkpt_cons (ev : REvent) (evs : List REvent) :
    countCkpt (ev :: evs) = (if isCkpt ev = true then 1 else 0) + countCkpt evs := by
  simp only [countCkpt, List.countP_cons]
  omega

theorem countCkpt_append (a b : List REvent) :
    countCkpt (a ++ b) = countCkpt a + countCkpt b := by
  simp only [countCkpt, List.countP_append]

theorem countCkpt_passAux (act : String → REvent) (hact : ∀ f, isCkpt (act f) = false)
    (l : List String) : ∀ cmds : Nat,
    countCkpt (passAux act l cmds) =
      (cmds % PERIODIC_CHECKPOINT + l.length) / PERIODIC_CHECKPOINT := by
  induction l with
  | nil =>
    intro cmds
    simp only [passAux, countCkpt, List.countP_nil, List.length_nil]
    simp only [PERIODIC_CHECKPOINT]
    omega
  | cons f rest ih =>
    intro cmds
    have hmod : (cmds + 1) % UINT_MAX_SUCC % PERIODIC_CHECKPOINT =
        (cmds + 1) % PERIODIC_CHECKPOINT := by
      simp only [PERIODIC_CHECKPOINT, UINT_MAX_SUCC]
      exact Nat.mod_mod_of_dvd _ (by norm_num)
    rw [passAux, countCkpt_cons, countCkpt_append, ih ((cmds + 1) % UINT_MAX_SUCC)]
    simp only [hact f, Bool.false_eq_true, if_false]
    by_cases hc : (cmds + 1) % UINT_MAX_SUCC % PERIODIC_CHECKPOINT = 0
    · rw [if_pos hc, hmod] at *
      rw [hmod] at hc
      show 0 + (countCkpt [REvent.checkpoint] + _) = _
      rw [show countCkpt [REvent.checkpoint] = 1 from rfl]
      simp only [List.length_cons, PERIODIC_CHECKPOINT] at *
      omega
    · rw [if_neg hc, hmod] at *
      rw [hmod] at hc
      show 0 + (countCkpt [] + _) = _
      rw [show countCkpt [] = 0 from rfl]
      simp only [List.length_cons, PERIODIC_CHECKPOINT] at *
      omega

theorem mem_passAux (act : String → REvent) (l : List String) :
    ∀ (cmds : Nat) (f : String), f ∈ l → act f ∈ passAux act l cmds := by
  induction l with
  | nil => intro _ _ hf; cases hf
  | cons g rest ih =>
    intro cmds f hf
    rw [passAux]
    rcases List.mem_cons.mp hf with hf | hf
    · subst hf; exact List.mem_cons_self _ _
    · exact List.mem_cons_of_mem _ (List.mem_append_right _ (ih _ f hf))

theorem passAux_noCancelRead (act : String → REvent)
    (hact : ∀ f, isCancelRead (act f) = false) (l : List String) :
    ∀ cmds : Nat, (passAux act l cmds).any isCancelRead = false := by
  induction l with
  | nil => intro _; rfl
  | cons f rest ih =>
    intro cmds
    rw [passAux]
    simp only [List.any_cons, List.any_append, hact f, ih, Bool.or_self, Bool.or_false,
      Bool.false_or]
    split
    · simp [isCancelRead]
    · simp

theorem flushLoop_wakeCheckpoint (I : Nat) (enum : Nat → Option (List String)) :
    ∀ r ticks e : Nat, (flushLoop I enum r ticks e).all wakeHasCheckpoint = true := by
  intro r
  induction r using Nat.strong_induction_on with
  | _ r ih =>
    intro ticks e
    match r with
    | 0 => rfl
    | 1 =>
      by_cases h : tickSucc ticks % SEC_TO_TICKS I = 0
      · rw [flushLoop_gateCancel I enum ticks e h]; rfl
      · rw [flushLoop_skip I enum 0 ticks e h]
        simp only [List.all_cons, Bool.and_eq_true]
        exact ⟨rfl, ih 0 (by omega) (tickSucc ticks) e⟩
    | r + 2 =>
      by_cases h : tickSucc ticks % SEC_TO_TICKS I = 0
      · cases henum : enum e with
        | none =>
          rw [flushLoop_fire_none I enum r ticks e h henum]
          simp only [List.all_cons, Bool.and_eq_true]
          exact ⟨rfl, ih r (by omega) (tickSucc ticks) (e + 1)⟩
        | some l =>
          rw [flushLoop_fire_some I enum r ticks e l h henum]
          simp only [List.all_cons, Bool.and_eq_true]
          exact ⟨rfl, ih r (by omega) (tickSucc ticks) (e + 1)⟩
      · rw [flushLoop_skip I enum (r + 1) ticks e h]
        simp only [List.all_cons, Bool.and_eq_true]
        exact ⟨rfl, ih (r + 1) (by omega) (tickSucc ticks) e⟩

theorem unmapLoop_wakeCheckpoint (I : Nat) (enum : Nat → Option (List String)) :
    ∀ r ticks e : Nat, (unmapLoop I enum r ticks e).all wakeHasCheckpoint = true := by
  intro r
  induction r using Nat.strong_induction_on with
  | _ r ih =>
    intro ticks e
    match r with
    | 0 => rfl
    | 1 =>
      by_cases h : tickSucc ticks % SEC_TO_TICKS I = 0
      · rw [unmapLoop_gateCancel I enum ticks e h]; rfl
      · rw [unmapLoop_skip I enum 0 ticks e h]
        simp only [List.all_cons, Bool.and_eq_true]
        exact ⟨rfl, ih 0 (by omega) (tickSucc ticks) e⟩
    | r + 2 =>
      by_cases h : tickSucc ticks % SEC_TO_TICKS I = 0
      · cases henum : enum e with
        | none =>
          rw [unmapLoop_fire_none I enum r ticks e h henum]
          simp only [List.all_cons, Bool.and_eq_true]
          exact ⟨rfl, ih r (by omega) (tickSucc ticks) (e + 1)⟩
        | some l =>
          rw [unmapLoop_fire_some I enum r ticks e l h henum]
          simp only [List.all_cons, Bool.and_eq_true]
          exact ⟨rfl, ih r (by omega) (tickSucc ticks) (e + 1)⟩
      · rw [unmapLoop_skip I enum (r + 1) ticks e h]
        simp only [List.all_cons, Bool.and_eq_true]
        exact ⟨rfl, ih (r + 1) (by omega) (tickSucc ticks) e⟩

theorem memLoop_wakeCheckpoint (I mx sf : Nat) (rss : Nat → Nat)
    (enum : Nat → Option (List String)) :
    ∀ r ticks e s tr, memLoop I mx sf rss enum r ticks e s = some tr →
      tr.all wakeHasCheckpoint = true := by
  intro r
  induction r using Nat.strong_induction_on with
  | _ r ih =>
    intro ticks e s tr htr
    match r with
    | 0 =>
      rw [memLoop_zero] at htr
      cases htr
      rfl
    | 1 =>
      by_cases h : tickSucc ticks % SEC_TO_TICKS I = 0
      · rw [memLoop_gateCancel I mx sf rss enum ticks e s h] at htr
        cases htr
        rfl
      · rw [memLoop_skip I mx sf rss enum 0 ticks e s h] at htr
        rcases Option.map_eq_some'.mp htr with ⟨tr', htr', rfl⟩
        simp only [List.all_cons, Bool.and_eq_true]
        exact ⟨rfl, ih 0 (by omega) (tickSucc ticks) e s tr' htr'⟩
    | r + 2 =>
      by_cases h : tickSucc ticks % SEC_TO_TICKS I = 0
      · by_cases hhigh : mx < rss s
        · cases henum : enum e with
          | none =>
            rw [memLoop_fire_enumFail I mx sf rss enum r ticks e s h hhigh henum] at htr
            rcases Option.map_eq_some'.mp htr with ⟨tr', htr', rfl⟩
            simp only [List.all_cons, Bool.and_eq_true]
            exact ⟨rfl, ih r (by omega) (tickSucc ticks) (e + 1) (s + 1) tr' htr'⟩
          | some l =>
            cases hev : evictLoop sf rss l (rss s) (s + 1) 0 with
            | none =>
              rw [memLoop_fire_crash I mx sf rss enum r ticks e s l h hhigh henum hev] at htr
              cases htr
            | some p =>
              rw [memLoop_fire_evict I mx sf rss enum r ticks e s l p.1 p.2 h hhigh henum
                (by rw [hev])] at htr
              rcases Option.map_eq_some'.mp htr with ⟨tr', htr', rfl⟩
              simp only [List.all_cons, Bool.and_eq_true]
              exact ⟨rfl, ih r (by omega) (tickSucc ticks) (e + 1) p.2 tr' htr'⟩
        · rw [memLoop_fire_low I mx sf rss enum r ticks e s h hhigh] at htr
          rcases Option.map_eq_some'.mp htr with ⟨tr', htr', rfl⟩
          simp only [List.all_cons, Bool.and_eq_true]
          exact ⟨rfl, ih r (by omega) (tickSucc ticks) e (s + 1) tr' htr'⟩
      · rw [memLoop_skip I mx sf rss enum (r + 1) ticks e s h] at htr
        rcases Option.map_eq_some'.mp htr with ⟨tr', htr', rfl⟩
        simp only [List.all_cons, Bool.and_eq_true]
        exact ⟨rfl, ih (r + 1) (by omega) (tickSucc ticks) e s tr' htr'⟩

theorem evictLoop_noCancelRead (safe : Nat) (rss : Nat → Nat) :
    ∀ (filters : List String) (cur s cmds : Nat) (evs : List REvent) (s' : Nat),
      evictLoop safe rss filters cur s cmds = some (evs, s') →
      evs.any isCancelRead = false := by
  intro filters
  induction filters with
  | nil =>
    intro cur s cmds evs s' hev
    rw [evictLoop] at hev
    by_cases hcur : safe < cur
    · rw [if_pos hcur] at hev; cases hev
    · rw [if_neg hcur] at hev
      cases hev
      rfl
  | cons f rest ih =>
    intro cur s cmds evs s' hev
    rw [evictLoop] at hev
    by_cases hcur : safe < cur
    · rw [if_pos hcur] at hev
      cases hrec : evictLoop safe rss rest (rss s) (s + 1) ((cmds + 1) % UINT_MAX_SUCC) with
      | none => rw [hrec] at hev; cases hev
      | some p =>
        rw [hrec] at hev
        cases hev
        simp only [List.any_cons, List.any_append,
          ih (rss s) (s + 1) ((cmds + 1) % UINT_MAX_SUCC) p.1 p.2 (by rw [hrec]),
          show isCancelRead (REvent.flushUnmapFilter f) = false from rfl]
        split <;> rfl
    · rw [if_neg hcur] at hev
      cases hev
      rfl

theorem flushLoop_noActionAfterCancel (I : Nat) (enum : Nat → Option (List String)) :
    ∀ r ticks e : Nat, noActionAfterCancel (flushLoop I enum r ticks e) = true := by
  intro r
  induction r using Nat.strong_induction_on with
  | _ r ih =>
    intro ticks e
    match r with
    | 0 => rfl
    | 1 =>
      by_cases h : tickSucc ticks % SEC_TO_TICKS I = 0
      · rw [flushLoop_gateCancel I enum ticks e h]; rfl
      · rw [flushLoop_skip I enum 0 ticks e h, flushLoop_zero]; rfl
    | r + 2 =>
      by_cases h : tickSucc ticks % SEC_TO_TICKS I = 0
      · cases henum : enum e with
        | none =>
          rw [flushLoop_fire_none I enum r ticks e h henum, noActionAfterCancel]
          rw [show entryObservedCancel [REvent.readTop true, REvent.checkpoint,
            REvent.readGate true, REvent.listFilters false] = false from rfl]
          simp only [Bool.not_false, Bool.true_or, Bool.true_and]
          exact ih r (by omega) (tickSucc ticks) (e + 1)
        | some l =>
          rw [flushLoop_fire_some I enum r ticks e l h henum, noActionAfterCancel]
          have hobs : entryObservedCancel
              ([REvent.readTop true, REvent.checkpoint, REvent.readGate true,
                REvent.listFilters true] ++ passAux REvent.flushFilter l 0 ++
                [REvent.cleanupList]) = false := by
            simp only [entryObservedCancel, List.any_append,
              passAux_noCancelRead REvent.flushFilter (fun f => rfl) l 0]
            decide
          rw [hobs]
          simp only [Bool.not_false, Bool.true_or, Bool.true_and]
          exact ih r (by omega) (tickSucc ticks) (e + 1)
      · rw [flushLoop_skip I enum (r + 1) ticks e h, noActionAfterCancel]
        rw [show entryObservedCancel [REvent.readTop true, REvent.checkpoint] = false from rfl]
        simp only [Bool.not_false, Bool.true_or, Bool.true_and]
        exact ih (r + 1) (by omega) (tickSucc ticks) e

theorem unmapLoop_noActionAfterCancel (I : Nat) (enum : Nat → Option (List String)) :
    ∀ r ticks e : Nat, noActionAfterCancel (unmapLoop I enum r ticks e) = true := by
  intro r
  induction r using Nat.strong_induction_on with
  | _ r ih =>
    intro ticks e
    match r with
    | 0 => rfl
    | 1 =>
      by_cases h : tickSucc ticks % SEC_TO_TICKS I = 0
      · rw [unmapLoop_gateCancel I enum ticks e h]; rfl
      · rw [unmapLoop_skip I enum 0 ticks e h, unmapLoop_zero]; rfl
    | r + 2 =>
      by_cases h : tickSucc ticks % SEC_TO_TICKS I = 0
      · cases henum : enum e with
        | none =>
          rw [unmapLoop_fire_none I enum r ticks e h henum, noActionAfterCancel]
          rw [show entryObservedCancel [REvent.readTop true, REvent.checkpoint,
            REvent.readGate true, REvent.listCold false] = false from rfl]
          simp only [Bool.not_false, Bool.true_or, Bool.true_and]
          exact ih r (by omega) (tickSucc ticks) (e + 1)
        | some l =>
          rw [unmapLoop_fire_some I enum r ticks e l h henum, noActionAfterCancel]
          have hobs : entryObservedCancel
              ([REvent.readTop true, REvent.checkpoint, REvent.readGate true,
                REvent.listCold true] ++ passAux REvent.unmapFilter l 0 ++
                [REvent.cleanupList]) = false := by
            simp only [entryObservedCancel, List.any_append,
              passAux_noCancelRead REvent.unmapFilter (fun f => rfl) l 0]
            decide
          rw [hobs]
          simp only [Bool.not_false, Bool.true_or, Bool.true_and]
          exact ih r (by omega) (tickSucc ticks) (e + 1)
      · rw [unmapLoop_skip I enum (r + 1) ticks e h, noActionAfterCancel]
        rw [show entryObservedCancel [REvent.readTop true, REvent.checkpoint] = false from rfl]
        simp only [Bool.not_false, Bool.true_or, Bool.true_and]
        exact ih (r + 1) (by omega) (tickSucc ticks) e

theorem memLoop_noActionAfterCancel (I mx sf : Nat) (rss : Nat → Nat)
    (enum : Nat → Option (List String)) :
    ∀ r ticks e s tr, memLoop I mx sf rss enum r ticks e s = some tr →
      noActionAfterCancel tr = true := by
  intro r
  induction r using Nat.strong_induction_on with
  | _ r ih =>
    intro ticks e s tr htr
    match r with
    | 0 =>
      rw [memLoop_zero] at htr
      cases htr
      rfl
    | 1 =>
      by_cases h : tickSucc ticks % SEC_TO_TICKS I = 0
      · rw [memLoop_gateCancel I mx sf rss enum ticks e s h] at htr
        cases htr
        rfl
      · rw [memLoop_skip I mx sf rss enum 0 ticks e s h] at htr
        rcases Option.map_eq_some'.mp htr with ⟨tr', htr', rfl⟩
        rw [memLoop_zero] at htr'
        cases htr'
        rfl
    | r + 2 =>
      by_cases h : tickSucc ticks % SEC_TO_TICKS I = 0
      · by_cases hhigh : mx < rss s
        · cases henum : enum e with
          | none =>
            rw [memLoop_fire_enumFail I mx sf rss enum r ticks e s h hhigh henum] at htr
            rcases Option.map_eq_some'.mp htr with ⟨tr', htr', rfl⟩
            rw [noActionAfterCancel]
            rw [show entryObservedCancel [REvent.readTop true, REvent.checkpoint,
              REvent.readGate true, REvent.listFilters false] = false from rfl]
            simp only [Bool.not_false, Bool.true_or, Bool.true_and]
            exact ih r (by omega) (tickSucc ticks) (e + 1) (s + 1) tr' htr'
          | some l =>
            cases hev : evictLoop sf rss l (rss s) (s + 1) 0 with
            | none =>
              rw [memLoop_fire_crash I mx sf rss enum r ticks e s l h hhigh henum hev] at htr
              cases htr
            | some p =>
              rw [memLoop_fire_evict I mx sf rss enum r ticks e s l p.1 p.2 h hhigh henum
                (by rw [hev])] at htr
              rcases Option.map_eq_some'.mp htr with ⟨tr', htr', rfl⟩
              rw [noActionAfterCancel]
              have hobs : entryObservedCancel
                  ([REvent.readTop true, REvent.checkpoint, REvent.readGate true,
                    REvent.listFilters true] ++ p.1 ++ [REvent.cleanupList]) = false := by
                simp only [entryObservedCancel, List.any_append,
                  evictLoop_noCancelRead sf rss l (rss s) (s + 1) 0 p.1 p.2 (by rw [hev])]
                decide
              rw [hobs]
              simp only [Bool.not_false, Bool.true_or, Bool.true_and]
              exact ih r (by omega) (tickSucc ticks) (e + 1) p.2 tr' htr'
        · rw [memLoop_fire_low I mx sf rss enum r ticks e s h hhigh] at htr
          rcases Option.map_eq_some'.mp htr with ⟨tr', htr', rfl⟩
          rw [noActionAfterCancel]
          rw [show entryObservedCancel [REvent.readTop true, REvent.checkpoint,
            REvent.readGate true] = false from rfl]
          simp only [Bool.not_false, Bool.true_or, Bool.true_and]
          exact ih r (by omega) (tickSucc ticks) e (s + 1) tr' htr'
      · rw [memLoop_skip I mx sf rss enum (r + 1) ticks e s h] at htr
        rcases Option.map_eq_some'.mp htr with ⟨tr', htr', rfl⟩
        rw [noActionAfterCancel]
        rw [show entryObservedCancel [REvent.readTop true, REvent.checkpoint] = false from rfl]
        simp only [Bool.not_false, Bool.true_or, Bool.true_and]
        exact ih (r + 1) (by omega) (tickSucc ticks) e s tr' htr'

theorem endsWithExit_cons (w : List REvent) (tr : List (List REvent)) (h : tr ≠ []) :
    endsWithExit (w :: tr) = endsWithExit tr := by
  cases tr with
  | nil => exact absurd rfl h
  | cons w2 rest => rfl

theorem flushLoop_ne_nil (I : Nat) (enum : Nat → Option (List String)) (r ticks e : Nat) :
    flushLoop I enum r ticks e ≠ [] := by
  match r with
  | 0 => rw [flushLoop_zero]; simp
  | 1 =>
    by_cases h : tickSucc ticks % SEC_TO_TICKS I = 0
    · rw [flushLoop_gateCancel I enum ticks e h]; simp
    · rw [flushLoop_skip I enum 0 ticks e h]; simp
  | r + 2 =>
    by_cases h : tickSucc ticks % SEC_TO_TICKS I = 0
    · cases henum : enum e with
      | none => rw [flushLoop_fire_none I enum r ticks e h henum]; simp
      | some l => rw [flushLoop_fire_some I enum r ticks e l h henum]; simp
    · rw [flushLoop_skip I enum (r + 1) ticks e h]; simp

theorem unmapLoop_ne_nil (I : Nat) (enum : Nat → Option (List String)) (r ticks e : Nat) :
    unmapLoop I enum r ticks e ≠ [] := by
  match r with
  | 0 => rw [unmapLoop_zero]; simp
  | 1 =>
    by_cases h : tickSucc ticks % SEC_TO_TICKS I = 0
    · rw [unmapLoop_gateCancel I enum ticks e h]; simp
    · rw [unmapLoop_skip I enum 0 ticks e h]; simp
  | r + 2 =>
    by_cases h : tickSucc ticks % SEC_TO_TICKS I = 0
    · cases henum : enum e with
      | none => rw [unmapLoop_fire_none I enum r ticks e h henum]; simp
      | some l => rw [unmapLoop_fire_some I enum r ticks e l h henum]; simp
    · rw [unmapLoop_skip I enum (r + 1) ticks e h]; simp

theorem memLoop_ne_nil (I mx sf : Nat) (rss : Nat → Nat)
    (enum : Nat → Option (List String)) :
    ∀ r ticks e s tr, memLoop I mx sf rss enum r ticks e s = some tr → tr ≠ [] := by
  intro r ticks e s tr htr
  match r with
  | 0 =>
    rw [memLoop_zero] at htr
    cases htr; simp
  | 1 =>
    by_cases h : tickSucc ticks % SEC_TO_TICKS I = 0
    · rw [memLoop_gateCancel I mx sf rss enum ticks e s h] at htr
      cases htr; simp
    · rw [memLoop_skip I mx sf rss enum 0 ticks e s h] at htr
      rcases Option.map_eq_some'.mp htr with ⟨tr', _, rfl⟩
      simp
  | r + 2 =>
    by_cases h : tickSucc ticks % SEC_TO_TICKS I = 0
    · by_cases hhigh : mx < rss s
      · cases henum : enum e with
        | none =>
          rw [memLoop_fire_enumFail I mx sf rss enum r ticks e s h hhigh henum] at htr
          rcases Option.map_eq_some'.mp htr with ⟨tr', _, rfl⟩
          simp
        | some l =>
          cases hev : evictLoop sf rss l (rss s) (s + 1) 0 with
          | none =>
            rw [memLoop_fire_crash I mx sf rss enum r ticks e s l h hhigh henum hev] at htr
            cases htr
          | some p =>
            rw [memLoop_fire_evict I mx sf rss enum r ticks e s l p.1 p.2 h hhigh henum
              (by rw [hev])] at htr
            rcases Option.map_eq_some'.mp htr with ⟨tr', _, rfl⟩
            simp
      · rw [memLoop_fire_low I mx sf rss enum r ticks e s h hhigh] at htr
        rcases Option.map_eq_some'.mp htr with ⟨tr', _, rfl⟩
        simp
    · rw [memLoop_skip I mx sf rss enum (r + 1) ticks e s h] at htr
      rcases Option.map_eq_some'.mp htr with ⟨tr', _, rfl⟩
      simp

theorem flushLoop_endsWithExit (I : Nat) (enum : Nat → Option (List String)) :
    ∀ r ticks e : Nat, endsWithExit (flushLoop I enum r ticks e) = true := by
  intro r
  induction r using Nat.strong_induction_on with
  | _ r ih =>
    intro ticks e
    match r with
    | 0 => rfl
    | 1 =>
      by_cases h : tickSucc ticks % SEC_TO_TICKS I = 0
      · rw [flushLoop_gateCancel I enum ticks e h]; rfl
      · rw [flushLoop_skip I enum 0 ticks e h,
          endsWithExit_cons _ _ (flushLoop_ne_nil I enum 0 (tickSucc ticks) e)]
        exact ih 0 (by omega) (tickSucc ticks) e
    | r + 2 =>
      by_cases h : tickSucc ticks % SEC_TO_TICKS I = 0
      · cases henum : enum e with
        | none =>
          rw [flushLoop_fire_none I enum r ticks e h henum,
            endsWithExit_cons _ _ (flushLoop_ne_nil I enum r (tickSucc ticks) (e + 1))]
          exact ih r (by omega) (tickSucc ticks) (e + 1)
        | some l =>
          rw [flushLoop_fire_some I enum r ticks e l h henum,
            endsWithExit_cons _ _ (flushLoop_ne_nil I enum r (tickSucc ticks) (e + 1))]
          exact ih r (by omega) (tickSucc ticks) (e + 1)
      · rw [flushLoop_skip I enum (r + 1) ticks e h,
          endsWithExit_cons _ _ (flushLoop_ne_nil I enum (r + 1) (tickSucc ticks) e)]
        exact ih (r + 1) (by omega) (tickSucc ticks) e

theorem unmapLoop_endsWithExit (I : Nat) (enum : Nat → Option (List String)) :
    ∀ r ticks e : Nat, endsWithExit (unmapLoop I enum r ticks e) = true := by
  intro r
  induction r using Nat.strong_induction_on with
  | _ r ih =>
    intro ticks e
    match r with
    | 0 => rfl
    | 1 =>
      by_cases h : tickSucc ticks % SEC_TO_TICKS I = 0
      · rw [unmapLoop_gateCancel I enum ticks e h]; rfl
      · rw [unmapLoop_skip I enum 0 ticks e h,
          endsWithExit_cons _ _ (unmapLoop_ne_nil I enum 0 (tickSucc ticks) e)]
        exact ih 0 (by omega) (tickSucc ticks) e
    | r + 2 =>
      by_cases h : tickSucc ticks % SEC_TO_TICKS I = 0
      · cases henum : enum e with
        | none =>
          rw [unmapLoop_fire_none I enum r ticks e h henum,
            endsWithExit_cons _ _ (unmapLoop_ne_nil I enum r (tickSucc ticks) (e + 1))]
          exact ih r (by omega) (tickSucc ticks) (e + 1)
        | some l =>
          rw [unmapLoop_fire_some I enum r ticks e l h henum,
            endsWithExit_cons _ _ (unmapLoop_ne_nil I enum r (tickSucc ticks) (e + 1))]
          exact ih r (by omega) (tickSucc ticks) (e + 1)
      · rw [unmapLoop_skip I enum (r + 1) ticks e h,
          endsWithExit_cons _ _ (unmapLoop_ne_nil I enum (r + 1) (tickSucc ticks) e)]
        exact ih (r + 1) (by omega) (tickSucc ticks) e

theorem memLoop_endsWithExit (I mx sf : Nat) (rss : Nat → Nat)
    (enum : Nat → Option (List String)) :
    ∀ r ticks e s tr, memLoop I mx sf rss enum r ticks e s = some tr →
      endsWithExit tr = true := by
  intro r
  induction r using Nat.strong_induction_on with
  | _ r ih =>
    intro ticks e s tr htr
    match r with
    | 0 =>
      rw [memLoop_zero] at htr
      cases htr; rfl
    | 1 =>
      by_cases h : tickSucc ticks % SEC_TO_TICKS I = 0
      · rw [memLoop_gateCancel I mx sf rss enum ticks e s h] at htr
        cases htr; rfl
      · rw [memLoop_skip I mx sf rss enum 0 ticks e s h] at htr
        rcases Option.map_eq_some'.mp htr with ⟨tr', htr', rfl⟩
        rw [endsWithExit_cons _ _ (memLoop_ne_nil I mx sf rss enum 0 (tickSucc ticks) e s tr' htr')]
        exact ih 0 (by omega) (tickSucc ticks) e s tr' htr'
    | r + 2 =>
      by_cases h : tickSucc ticks % SEC_TO_TICKS I = 0
      · by_cases hhigh : mx < rss s
        · cases henum : enum e with
          | none =>
            rw [memLoop_fire_enumFail I mx sf rss enum r ticks e s h hhigh henum] at htr
            rcases Option.map_eq_some'.mp htr with ⟨tr', htr', rfl⟩
            rw [endsWithExit_cons _ _
              (memLoop_ne_nil I mx sf rss enum r (tickSucc ticks) (e + 1) (s + 1) tr' htr')]
            exact ih r (by omega) (tickSucc ticks) (e + 1) (s + 1) tr' htr'
          | some l =>
            cases hev : evictLoop sf rss l (rss s) (s + 1) 0 with
            | none =>
              rw [memLoop_fire_crash I mx sf rss enum r ticks e s l h hhigh henum hev] at htr
              cases htr
            | some p =>
              rw [memLoop_fire_evict I mx sf rss enum r ticks e s l p.1 p.2 h hhigh henum
                (by rw [hev])] at htr
              rcases Option.map_eq_some'.mp htr with ⟨tr', htr', rfl⟩
              rw [endsWithExit_cons _ _
                (memLoop_ne_nil I mx sf rss enum r (tickSucc ticks) (e + 1) p.2 tr' htr')]
              exact ih r (by omega) (tickSucc ticks) (e + 1) p.2 tr' htr'
        · rw [memLoop_fire_low I mx sf rss enum r ticks e s h hhigh] at htr
          rcases Option.map_eq_some'.mp htr with ⟨tr', htr', rfl⟩
          rw [endsWithExit_cons _ _
            (memLoop_ne_nil I mx sf rss enum r (tickSucc ticks) e (s + 1) tr' htr')]
          exact ih r (by omega) (tickSucc ticks) e (s + 1) tr' htr'
      · rw [memLoop_skip I mx sf rss enum (r + 1) ticks e s h] at htr
        rcases Option.map_eq_some'.mp htr with ⟨tr', htr', rfl⟩
        rw [endsWithExit_cons _ _
          (memLoop_ne_nil I mx sf rss enum (r + 1) (tickSucc ticks) e s tr' htr')]
        exact ih (r + 1) (by omega) (tickSucc ticks) e s tr' htr'

theorem flushLoop_length_le (I : Nat) (enum : Nat → Option (List String)) :
    ∀ r ticks e : Nat, (flushLoop I enum r ticks e).length ≤ r + 1 := by
  intro r
  induction r using Nat.strong_induction_on with
  | _ r ih =>
    intro ticks e
    match r with
    | 0 => rw [flushLoop_zero]; simp
    | 1 =>
      by_cases h : tickSucc ticks % SEC_TO_TICKS I = 0
      · rw [flushLoop_gateCancel I enum ticks e h]; simp
      · rw [flushLoop_skip I enum 0 ticks e h]
        have := ih 0 (by omega) (tickSucc ticks) e
        simp only [List.length_cons]
        omega
    | r + 2 =>
      by_cases h : tickSucc ticks % SEC_TO_TICKS I = 0
      · cases henum : enum e with
        | none =>
          rw [flushLoop_fire_none I enum r ticks e h henum]
          have := ih r (by omega) (tickSucc ticks) (e + 1)
          simp only [List.length_cons]
          omega
        | some l =>
          rw [flushLoop_fire_some I enum r ticks e l h henum]
          have := ih r (by omega) (tickSucc ticks) (e + 1)
          simp only [List.length_cons]
          omega
      · rw [flushLoop_skip I enum (r + 1) ticks e h]
        have := ih (r + 1) (by omega) (tickSucc ticks) e
        simp only [List.length_cons]
        omega

theorem unmapLoop_length_le (I : Nat) (enum : Nat → Option (List String)) :
    ∀ r ticks e : Nat, (unmapLoop I enum r ticks e).length ≤ r + 1 := by
  intro r
  induction r using Nat.strong_induction_on with
  | _ r ih =>
    intro ticks e
    match r with
    | 0 => rw [unmapLoop_zero]; simp
    | 1 =>
      by_cases h : tickSucc ticks % SEC_TO_TICKS I = 0
      · rw [unmapLoop_gateCancel I enum ticks e h]; simp
      · rw [unmapLoop_skip I enum 0 ticks e h]
        have := ih 0 (by omega) (tickSucc ticks) e
        simp only [List.length_cons]
        omega
    | r + 2 =>
      by_cases h : tickSucc ticks % SEC_TO_TICKS I = 0
      · cases henum : enum e with
        | none =>
          rw [unmapLoop_fire_none I enum r ticks e h henum]
          have := ih r (by omega) (tickSucc ticks) (e + 1)
          simp only [List.length_cons]
          omega
        | some l =>
          rw [unmapLoop_fire_some I enum r ticks e l h henum]
          have := ih r (by omega) (tickSucc ticks) (e + 1)
          simp only [List.length_cons]
          omega
      · rw [unmapLoop_skip I enum (r + 1) ticks e h]
        have := ih (r + 1) (by omega) (tickSucc ticks) e
        simp only [List.length_cons]
        omega

theorem evictedNames_evict_cons (f : String) (evs : List REvent) :
    evictedNames (REvent.flushUnmapFilter f :: evs) = f :: evictedNames evs := rfl

theorem evictedNames_ckpt_append (c : Prop) [Decidable c] (evs : List REvent) :
    evictedNames ((if c then [REvent.checkpoint] else []) ++ evs) = evictedNames evs := by
  split <;> rfl

theorem evictLoop_fixedDec (safe m0 d : Nat) :
    ∀ (filters : List String) (k cmds : Nat) (evs : List REvent) (s' : Nat),
      evictLoop safe (fun j => m0 - j * d) filters (m0 - k * d) (k + 1) cmds =
        some (evs, s') →
      evictedNames evs = filters.take (evictedNames evs).length ∧
      m0 - (k + (evictedNames evs).length) * d ≤ safe ∧
      (∀ j < (evictedNames evs).length, safe < m0 - (k + j) * d) := by
  intro filters
  induction filters with
  | nil =>
    intro k cmds evs s' hev
    rw [evictLoop] at hev
    by_cases hcur : safe < m0 - k * d
    · rw [if_pos hcur] at hev; cases hev
    · rw [if_neg hcur] at hev
      cases hev
      refine ⟨rfl, ?_, ?_⟩
      · simpa using Nat.le_of_not_lt hcur
      · intro j hj
        simp only [evictedNames, List.filterMap_nil, List.length_nil] at hj
        omega
  | cons f rest ih =>
    intro k cmds evs s' hev
    rw [evictLoop] at hev
    by_cases hcur : safe < m0 - k * d
    · rw [if_pos hcur] at hev
      split at hev
      · cases hev
      · rename_i evs0 s0 hrec
        obtain ⟨h1, h2, h3⟩ := ih (k + 1) ((cmds + 1) % UINT_MAX_SUCC) evs0 s0 hrec
        cases hev
        rw [evictedNames_evict_cons, evictedNames_ckpt_append]
        refine ⟨?_, ?_, ?_⟩
        · simp only [List.length_cons, List.take_succ_cons]
          rw [← h1]
        · simp only [List.length_cons]
          rw [show k + ((evictedNames evs0).length + 1) = k + 1 + (evictedNames evs0).length
            from by omega]
          exact h2
        · intro j hj
          cases j with
          | zero => simpa using hcur
          | succ j =>
            simp only [List.length_cons] at hj
            rw [show k + (j + 1) = k + 1 + j from by omega]
            exact h3 j (by omega)
    · rw [if_neg hcur] at hev
      cases hev
      refine ⟨rfl, ?_, ?_⟩
      · simpa using Nat.le_of_not_lt hcur
      · intro j hj
        simp only [evictedNames, List.filterMap_nil, List.length_nil] at hj
        omega

theorem tickSucc_iterate (n : Nat) : tickSucc^[n] 0 = n % UINT_MAX_SUCC := by
  induction n with
  | zero => simp [UINT_MAX_SUCC]
  | succ n ih =>
    rw [Function.iterate_succ_apply', ih, tickSucc]
    simp only [UINT_MAX_SUCC]
    omega

theorem fires_unique_in_window (I k : Nat) (hI : 0 < I)
    (hwin : (k + 1) * SEC_TO_TICKS I ≤ UINT_MAX_SUCC) :
    ∃! n : Nat, (k * SEC_TO_TICKS I < n ∧ n ≤ (k + 1) * SEC_TO_TICKS I) ∧
      n % UINT_MAX_SUCC % SEC_TO_TICKS I = 0 := by
  have hT : 0 < SEC_TO_TICKS I := by
    simp only [SEC_TO_TICKS]; omega
  refine ⟨(k + 1) * SEC_TO_TICKS I, ⟨⟨?_, le_refl _⟩, ?_⟩, ?_⟩
  · exact Nat.mul_lt_mul_of_lt_of_le (Nat.lt_succ_self k) (le_refl _) hT
  · rcases Nat.lt_or_ge ((k + 1) * SEC_TO_TICKS I) UINT_MAX_SUCC with hlt | hge
    · rw [Nat.mod_eq_of_lt hlt, Nat.mul_mod_left]
    · have heq : (k + 1) * SEC_TO_TICKS I = UINT_MAX_SUCC := le_antisymm hwin hge
      rw [heq, Nat.mod_self, Nat.zero_mod]
  · rintro m ⟨⟨hm1, hm2⟩, hmod⟩
    rcases Nat.lt_or_ge m UINT_MAX_SUCC with hlt | hge
    · rw [Nat.mod_eq_of_lt hlt] at hmod
      obtain ⟨q, hq⟩ := Nat.dvd_of_mod_eq_zero hmod
      subst hq
      rw [mul_comm (SEC_TO_TICKS I) q] at hm1 hm2 ⊢
      have hq1 : k < q := lt_of_mul_lt_mul_right hm1 (Nat.zero_le _)
      have hq2 : q ≤ k + 1 := Nat.le_of_mul_le_mul_right hm2 hT
      rw [show q = k + 1 from by omega]
    · have h1 : m = UINT_MAX_SUCC := le_antisymm (le_trans hm2 hwin) hge
      omega

theorem flushLoop_skipRun (I : Nat) (enum : Nat → Option (List String)) :
    ∀ (m r ticks e : Nat),
      (∀ j, ticks < j → j ≤ ticks + m → j % SEC_TO_TICKS I ≠ 0) →
      ticks + m < UINT_MAX_SUCC →
      flushLoop I enum (r + m) ticks e =
        List.replicate m [REvent.readTop true, REvent.checkpoint] ++
          flushLoop I enum r (ticks + m) e := by
  intro m
  induction m with
  | zero => intro r ticks e _ _; simp
  | succ m ihm =>
    intro r ticks e hj hlt
    have ht1 : tickSucc ticks = ticks + 1 := by
      rw [tickSucc]; exact Nat.mod_eq_of_lt (by omega)
    have hskip : tickSucc ticks % SEC_TO_TICKS I ≠ 0 := by
      rw [ht1]; exact hj (ticks + 1) (by omega) (by omega)
    rw [show r + (m + 1) = (r + m) + 1 from by omega,
      flushLoop_skip I enum (r + m) ticks e hskip, ht1,
      ihm r (ticks + 1) e (fun j h1 h2 => hj j (by omega) (by omega)) (by omega),
      show ticks + 1 + m = ticks + (m + 1) from by omega]
    simp [List.replicate_succ]

theorem unmapLoop_skipRun (I : Nat) (enum : Nat → Option (List String)) :
    ∀ (m r ticks e : Nat),
      (∀ j, ticks < j → j ≤ ticks + m → j % SEC_TO_TICKS I ≠ 0) →
      ticks + m < UINT_MAX_SUCC →
      unmapLoop I enum (r + m) ticks e =
        List.replicate m [REvent.readTop true, REvent.checkpoint] ++
          unmapLoop I enum r (ticks + m) e := by
  intro m
  induction m with
  | zero => intro r ticks e _ _; simp
  | succ m ihm =>
    intro r ticks e hj hlt
    have ht1 : tickSucc ticks = ticks + 1 := by
      rw [tickSucc]; exact Nat.mod_eq_of_lt (by omega)
    have hskip : tickSucc ticks % SEC_TO_TICKS I ≠ 0 := by
      rw [ht1]; exact hj (ticks + 1) (by omega) (by omega)
    rw [show r + (m + 1) = (r + m) + 1 from by omega,
      unmapLoop_skip I enum (r + m) ticks e hskip, ht1,
      ihm r (ticks + 1) e (fun j h1 h2 => hj j (by omega) (by omega)) (by omega),
      show ticks + 1 + m = ticks + (m + 1) from by omega]
    simp [List.replicate_succ]

theorem memLoop_skipRun (I mx sf : Nat) (rss : Nat → Nat)
    (enum : Nat → Option (List String)) :
    ∀ (m r ticks e s : Nat),
      (∀ j, ticks < j → j ≤ ticks + m → j % SEC_TO_TICKS I ≠ 0) →
      ticks + m < UINT_MAX_SUCC →
      memLoop I mx sf rss enum (r + m) ticks e s =
        (memLoop I mx sf rss enum r (ticks + m) e s).map
          (fun tr => List.replicate m [REvent.readTop true, REvent.checkpoint] ++ tr) := by
  intro m
  induction m with
  | zero =>
    intro r ticks e s _ _
    simp only [Nat.add_zero]
    cases memLoop I mx sf rss enum r ticks e s <;> simp
  | succ m ihm =>
    intro r ticks e s hj hlt
    have ht1 : tickSucc ticks = ticks + 1 := by
      rw [tickSucc]; exact Nat.mod_eq_of_lt (by omega)
    have hskip : tickSucc ticks % SEC_TO_TICKS I ≠ 0 := by
      rw [ht1]; exact hj (ticks + 1) (by omega) (by omega)
    rw [show r + (m + 1) = (r + m) + 1 from by omega,
      memLoop_skip I mx sf rss enum (r + m) ticks e s hskip, ht1,
      ihm r (ticks + 1) e s (fun j h1 h2 => hj j (by omega) (by omega)) (by omega),
      show ticks + 1 + m = ticks + (m + 1) from by omega, Option.map_map]
    cases memLoop I mx sf rss enum r (ticks + (m + 1)) e s <;>
      simp [List.replicate_succ]

/-- C1: the spec says that when the eviction pass exhausts the enumerated
filter list while resident memory is still above `safe_memory`, the loop
terminates after evicting every enumerated filter, without error.  The code's
loop `while (current_memory > safe_memory)` never checks `node` against NULL,
so in exactly that situation it dereferences the NULL next pointer: with
thresholds max=100 and safe=50, resident memory constant at 200 and a
successful enumeration of the single filter "a", the memory-check wake runs
off the end of the list — modelled as the undefined-behaviour outcome
`none`, for the full worker loop and for the eviction loop alone. -/
theorem c1_exhausted_enumeration_crashes :
    memLoop 1 100 50 (fun _ => 200) (fun _ => some ["a"]) 6 0 0 0 = none ∧
    evictLoop 50 (fun _ => 200) ["a"] 200 1 0 = none :=
  ⟨rfl, rfl⟩

/-- C4: each start function returns a live handle exactly when the
corresponding configured interval is strictly positive, and returns nothing
(no scheduling) when the interval is zero or negative. -/
theorem c4_start_iff_positive_interval (config : bloom_config) :
    ((start_flush_thread config).isSome ↔ 0 < config.flush_interval)
    ∧ ((start_cold_unmap_thread config).isSome ↔ 0 < config.cold_interval)
    ∧ ((start_memory_check_thread config).isSome ↔ 0 < config.memory_check_interval)
    ∧ (config.flush_interval ≤ 0 → start_flush_thread config = none)
    ∧ (config.cold_interval ≤ 0 → start_cold_unmap_thread config = none)
    ∧ (config.memory_check_interval ≤ 0 → start_memory_check_thread config = none) := by
  refine ⟨?_, ?_, ?_, ?_, ?_, ?_⟩ <;>
    simp [start_flush_thread, start_cold_unmap_thread, start_memory_check_thread]

/-- C4 witness: with flush interval 0, cold interval 5 and memory-check
interval -3, only the cold-unmap thread starts. -/
theorem c4_witness :
    start_flush_thread ⟨0, 5, -3, 70, 60⟩ = none ∧
    (start_cold_unmap_thread ⟨0, 5, -3, 70, 60⟩).isSome = true ∧
    start_memory_check_thread ⟨0, 5, -3, 70, 60⟩ = none :=
  ⟨(c4_start_iff_positive_interval _).2.2.2.1 (by decide),
   (c4_start_iff_positive_interval ⟨0, 5, -3, 70, 60⟩).2.1.mpr (by decide),
   (c4_start_iff_positive_interval _).2.2.2.2.2 (by decide)⟩

/-- C5: on every iteration of every worker's while loop that begins with a
positive `*should_run` read (a wake), the registry checkpoint call is the very
next event, unconditionally — for any interval, any enumeration outcomes, any
memory samples and any cancellation point. -/
theorem c5_checkpoint_every_wake :
    (∀ (I : Nat) (enum : Nat → Option (List String)) (r ticks e : Nat),
      (flushLoop I enum r ticks e).all wakeHasCheckpoint = true)
    ∧ (∀ (I : Nat) (enum : Nat → Option (List String)) (r ticks e : Nat),
      (unmapLoop I enum r ticks e).all wakeHasCheckpoint = true)
    ∧ (∀ (I mx sf : Nat) (rss : Nat → Nat) (enum : Nat → Option (List String))
        (r ticks e s : Nat) (tr : List (List REvent)),
        memLoop I mx sf rss enum r ticks e s = some tr →
        tr.all wakeHasCheckpoint = true) :=
  ⟨fun I enum => flushLoop_wakeCheckpoint I enum,
   fun I enum => unmapLoop_wakeCheckpoint I enum,
   fun I mx sf rss enum => memLoop_wakeCheckpoint I mx sf rss enum⟩

/-- C5 witness: the memory-check worker run for two idle wakes checkpoints on
both wakes. -/
theorem c5_witness :
    ([[REvent.readTop true, REvent.checkpoint],
      [REvent.readTop true, REvent.checkpoint],
      [REvent.readTop false]] : List (List REvent)).all wakeHasCheckpoint = true :=
  c5_checkpoint_every_wake.2.2 1 100 50 (fun _ => 80) (fun _ => some []) 2 0 0 0 _ rfl

/-- C7: a maintenance pass over n filters issues exactly n / 16 mid-pass
checkpoints (`PERIODIC_CHECKPOINT = 16`), for the flush pass and the
cold-unmap pass alike; in particular a pass over 33 filters issues exactly 2
mid-pass checkpoints. -/
theorem c7_midpass_checkpoint_count :
    (∀ l : List String,
      countCkpt (passAux REvent.flushFilter l 0) = l.length / PERIODIC_CHECKPOINT)
    ∧ (∀ l : List String,
      countCkpt (passAux REvent.unmapFilter l 0) = l.length / PERIODIC_CHECKPOINT)
    ∧ countCkpt (passAux REvent.flushFilter (List.replicate 33 "f") 0) = 2 := by
  refine ⟨?_, ?_, ?_⟩
  · intro l
    rw [countCkpt_passAux REvent.flushFilter (fun f => rfl) l 0]
    simp
  · intro l
    rw [countCkpt_passAux REvent.unmapFilter (fun f => rfl) l 0]
    simp
  · rw [countCkpt_passAux REvent.flushFilter (fun f => rfl) (List.replicate 33 "f") 0]
    simp [PERIODIC_CHECKPOINT]

/-- C9: the spec requires the release operation to be called exactly once per
successful enumeration, including on early-abort paths.  In the memory-check
worker, when the eviction pass exhausts the list while memory is still above
`safe_memory`, the code crashes on the NULL node before ever reaching
`filtmgr_cleanup_list`, so the successful enumeration of "a","b" is never
released: the run aborts (modelled `none`) with no `cleanupList` event. -/
theorem c9_release_missed_on_crash :
    memLoop 1 100 50 (fun _ => 200) (fun _ => some ["a", "b"]) 6 0 0 0 = none ∧
    evictLoop 50 (fun _ => 200) ["a", "b"] 200 1 0 = none :=
  ⟨rfl, rfl⟩

/-- C2: on a fired wake the memory-check worker does nothing when the sampled
resident memory is at or below `max_memory`; when it strictly exceeds
`max_memory` and enumeration succeeds it runs the eviction loop and then
releases the list; and under memory samples that drop by a fixed amount `d`
per eviction, the eviction loop evicts exactly the minimal prefix of the
enumeration needed to bring memory to or below `safe_memory` — in enumeration
order, never more (every evicted position still had memory above
`safe_memory`) and never fewer (the final memory is at or below
`safe_memory`). -/
theorem c2_minimal_eviction :
    (∀ (I mx sf : Nat) (rss : Nat → Nat) (enum : Nat → Option (List String))
        (r ticks e s : Nat),
        tickSucc ticks % SEC_TO_TICKS I = 0 → ¬ mx < rss s →
        memLoop I mx sf rss enum (r + 2) ticks e s =
          (memLoop I mx sf rss enum r (tickSucc ticks) e (s + 1)).map
            (fun tr =>
              [REvent.readTop true, REvent.checkpoint, REvent.readGate true] :: tr))
    ∧ (∀ (I mx sf : Nat) (rss : Nat → Nat) (enum : Nat → Option (List String))
        (r ticks e s : Nat) (l : List String) (evs : List REvent) (s' : Nat),
        tickSucc ticks % SEC_TO_TICKS I = 0 → mx < rss s → enum e = some l →
        evictLoop sf rss l (rss s) (s + 1) 0 = some (evs, s') →
        memLoop I mx sf rss enum (r + 2) ticks e s =
          (memLoop I mx sf rss enum r (tickSucc ticks) (e + 1) s').map
            (fun tr =>
              ([REvent.readTop true, REvent.checkpoint, REvent.readGate true,
                REvent.listFilters true] ++ evs ++ [REvent.cleanupList]) :: tr))
    ∧ (∀ (sf m0 d : Nat) (filters : List String) (evs : List REvent) (s' : Nat),
        evictLoop sf (fun j => m0 - j * d) filters m0 1 0 = some (evs, s') →
        evictedNames evs = filters.take (evictedNames evs).length ∧
        m0 - (evictedNames evs).length * d ≤ sf ∧
        (∀ j < (evictedNames evs).length, sf < m0 - j * d)) := by
  refine ⟨?_, ?_, ?_⟩
  · intro I mx sf rss enum r ticks e s h hlow
    exact memLoop_fire_low I mx sf rss enum r ticks e s h hlow
  · intro I mx sf rss enum r ticks e s l evs s' h hhigh henum hev
    exact memLoop_fire_evict I mx sf rss enum r ticks e s l evs s' h hhigh henum hev
  · intro sf m0 d filters evs s' hev
    have h := evictLoop_fixedDec sf m0 d filters 0 0 evs s' (by simpa using hev)
    simpa using h

/-- C2 witness: with max=100 and safe=50, a fired wake sampling 80 does
nothing; and from 120 with a fixed decrement of 30 over four filters, the
eviction loop evicts exactly the first three names — after which memory is
30 at or below 50, while after only two it was still 60 above 50. -/
theorem c2_witness :
    (memLoop 1 100 50 (fun _ => 80) (fun _ => some []) 2 3 0 0 =
      (memLoop 1 100 50 (fun _ => 80) (fun _ => some []) 0 4 0 1).map
        (fun tr =>
          [REvent.readTop true, REvent.checkpoint, REvent.readGate true] :: tr))
    ∧ evictedNames [REvent.flushUnmapFilter "a", REvent.flushUnmapFilter "b",
        REvent.flushUnmapFilter "c"] =
      (["a", "b", "c", "d"].take
        (evictedNames [REvent.flushUnmapFilter "a", REvent.flushUnmapFilter "b",
          REvent.flushUnmapFilter "c"]).length)
    ∧ 120 - (evictedNames [REvent.flushUnmapFilter "a", REvent.flushUnmapFilter "b",
        REvent.flushUnmapFilter "c"]).length * 30 ≤ 50
    ∧ 50 < 120 - 2 * 30 := by
  have h := c2_minimal_eviction.2.2 50 120 30 ["a", "b", "c", "d"]
    [REvent.flushUnmapFilter "a", REvent.flushUnmapFilter "b",
      REvent.flushUnmapFilter "c"] 4 (by decide)
  exact ⟨c2_minimal_eviction.1 1 100 50 (fun _ => 80) (fun _ => some []) 0 3 0 0
      (by decide) (by decide),
    h.1, h.2.1, h.2.2 2 (by decide)⟩

/-- C3: for every worker, the configured interval converts to ticks as
`I * 4` (250ms wake period); the tick counter, iterated from zero, holds
`n mod 2^32` after `n` wakes; a wake of any of the three workers skips the
maintenance action exactly when the incremented counter is nonzero mod
`SEC_TO_TICKS I` and performs it when the counter is zero mod
`SEC_TO_TICKS I` and the gate read of the cancellation flag returns
set-to-run (while a set cancellation flag at the gate suppresses it); and in
every window of `SEC_TO_TICKS I` consecutive wakes (within one counter wrap)
exactly one wake passes the tick test — one firing per `I` seconds. -/
theorem c3_tick_schedule (I : Nat) (hI : 0 < I) :
    SEC_TO_TICKS I = I * 4
    ∧ (∀ n : Nat, tickSucc^[n] 0 = n % UINT_MAX_SUCC)
    ∧ (∀ (enum : Nat → Option (List String)) (r ticks e : Nat),
        tickSucc ticks % SEC_TO_TICKS I ≠ 0 →
        flushLoop I enum (r + 1) ticks e =
          [REvent.readTop true, REvent.checkpoint] ::
            flushLoop I enum r (tickSucc ticks) e)
    ∧ (∀ (enum : Nat → Option (List String)) (r ticks e : Nat) (l : List String),
        tickSucc ticks % SEC_TO_TICKS I = 0 → enum e = some l →
        flushLoop I enum (r + 2) ticks e =
          ([REvent.readTop true, REvent.checkpoint, REvent.readGate true,
              REvent.listFilters true] ++
            passAux REvent.flushFilter l 0 ++ [REvent.cleanupList]) ::
            flushLoop I enum r (tickSucc ticks) (e + 1))
    ∧ (∀ (enum : Nat → Option (List String)) (ticks e : Nat),
        tickSucc ticks % SEC_TO_TICKS I = 0 →
        flushLoop I enum 1 ticks e =
          [[REvent.readTop true, REvent.checkpoint, REvent.readGate false],
           [REvent.readTop false]])
    ∧ (∀ k : Nat, (k + 1) * SEC_TO_TICKS I ≤ UINT_MAX_SUCC →
        ∃! n : Nat, (k * SEC_TO_TICKS I < n ∧ n ≤ (k + 1) * SEC_TO_TICKS I) ∧
          n % UINT_MAX_SUCC % SEC_TO_TICKS I = 0)
    ∧ (∀ (enum : Nat → Option (List String)) (r ticks e : Nat),
        tickSucc ticks % SEC_TO_TICKS I ≠ 0 →
        unmapLoop I enum (r + 1) ticks e =
          [REvent.readTop true, REvent.checkpoint] ::
            unmapLoop I enum r (tickSucc ticks) e)
    ∧ (∀ (enum : Nat → Option (List String)) (r ticks e : Nat) (l : List String),
        tickSucc ticks % SEC_TO_TICKS I = 0 → enum e = some l →
        unmapLoop I enum (r + 2) ticks e =
          ([REvent.readTop true, REvent.checkpoint, REvent.readGate true,
              REvent.listCold true] ++
            passAux REvent.unmapFilter l 0 ++ [REvent.cleanupList]) ::
            unmapLoop I enum r (tickSucc ticks) (e + 1))
    ∧ (∀ (enum : Nat → Option (List String)) (ticks e : Nat),
        tickSucc ticks % SEC_TO_TICKS I = 0 →
        unmapLoop I enum 1 ticks e =
          [[REvent.readTop true, REvent.checkpoint, REvent.readGate false],
           [REvent.readTop false]])
    ∧ (∀ (mx sf : Nat) (rss : Nat → Nat) (enum : Nat → Option (List String))
        (r ticks e s : Nat),
        tickSucc ticks % SEC_TO_TICKS I ≠ 0 →
        memLoop I mx sf rss enum (r + 1) ticks e s =
          (memLoop I mx sf rss enum r (tickSucc ticks) e s).map
            (fun tr => [REvent.readTop true, REvent.checkpoint] :: tr))
    ∧ (∀ (mx sf : Nat) (rss : Nat → Nat) (enum : Nat → Option (List String))
        (r ticks e s : Nat),
        tickSucc ticks % SEC_TO_TICKS I = 0 → ¬ mx < rss s →
        memLoop I mx sf rss enum (r + 2) ticks e s =
          (memLoop I mx sf rss enum r (tickSucc ticks) e (s + 1)).map
            (fun tr =>
              [REvent.readTop true, REvent.checkpoint, REvent.readGate true] :: tr))
    ∧ (∀ (mx sf : Nat) (rss : Nat → Nat) (enum : Nat → Option (List String))
        (r ticks e s : Nat) (l : List String) (evs : List REvent) (s' : Nat),
        tickSucc ticks % SEC_TO_TICKS I = 0 → mx < rss s → enum e = some l →
        evictLoop sf rss l (rss s) (s + 1) 0 = some (evs, s') →
        memLoop I mx sf rss enum (r + 2) ticks e s =
          (memLoop I mx sf rss enum r (tickSucc ticks) (e + 1) s').map
            (fun tr =>
              ([REvent.readTop true, REvent.checkpoint, REvent.readGate true,
                REvent.listFilters true] ++ evs ++ [REvent.cleanupList]) :: tr))
    ∧ (∀ (mx sf : Nat) (rss : Nat → Nat) (enum : Nat → Option (List String))
        (ticks e s : Nat),
        tickSucc ticks % SEC_TO_TICKS I = 0 →
        memLoop I mx sf rss enum 1 ticks e s =
          some [[REvent.readTop true, REvent.checkpoint, REvent.readGate false],
                [REvent.readTop false]]) :=
  ⟨rfl, tickSucc_iterate,
   fun enum r ticks e h => flushLoop_skip I enum r ticks e h,
   fun enum r ticks e l h henum => flushLoop_fire_some I enum r ticks e l h henum,
   fun enum ticks e h => flushLoop_gateCancel I enum ticks e h,
   fun k hwin => fires_unique_in_window I k hI hwin,
   fun enum r ticks e h => unmapLoop_skip I enum r ticks e h,
   fun enum r ticks e l h henum => unmapLoop_fire_some I enum r ticks e l h henum,
   fun enum ticks e h => unmapLoop_gateCancel I enum ticks e h,
   fun mx sf rss enum r ticks e s h => memLoop_skip I mx sf rss enum r ticks e s h,
   fun mx sf rss enum r ticks e s h hlow =>
     memLoop_fire_low I mx sf rss enum r ticks e s h hlow,
   fun mx sf rss enum r ticks e s l evs s' h hhigh henum hev =>
     memLoop_fire_evict I mx sf rss enum r ticks e s l evs s' h hhigh henum hev,
   fun mx sf rss enum ticks e s h => memLoop_gateCancel I mx sf rss enum ticks e s h⟩

/-- C3 witness: with a 2 second interval, the counter reads 8 after 8 wakes;
wake 1 of each worker skips; the wake whose incremented counter is 8 performs
each worker's action (or observes cancellation at the gate, which suppresses
it); and the first window of 8 wakes contains exactly one firing tick. -/
theorem c3_witness :
    SEC_TO_TICKS 2 = 2 * 4
    ∧ tickSucc^[8] 0 = 8 % UINT_MAX_SUCC
    ∧ (flushLoop 2 (fun _ => some ["x"]) 1 0 0 =
        [REvent.readTop true, REvent.checkpoint] ::
          flushLoop 2 (fun _ => some ["x"]) 0 (tickSucc 0) 0)
    ∧ (flushLoop 2 (fun _ => some ["x"]) 2 7 0 =
        ([REvent.readTop true, REvent.checkpoint, REvent.readGate true,
            REvent.listFilters true] ++
          passAux REvent.flushFilter ["x"] 0 ++ [REvent.cleanupList]) ::
          flushLoop 2 (fun _ => some ["x"]) 0 (tickSucc 7) 1)
    ∧ (flushLoop 2 (fun _ => some ["x"]) 1 7 0 =
        [[REvent.readTop true, REvent.checkpoint, REvent.readGate false],
         [REvent.readTop false]])
    ∧ (∃! n : Nat, (0 * SEC_TO_TICKS 2 < n ∧ n ≤ (0 + 1) * SEC_TO_TICKS 2) ∧
        n % UINT_MAX_SUCC % SEC_TO_TICKS 2 = 0)
    ∧ (unmapLoop 2 (fun _ => some ["x"]) 1 0 0 =
        [REvent.readTop true, REvent.checkpoint] ::
          unmapLoop 2 (fun _ => some ["x"]) 0 (tickSucc 0) 0)
    ∧ (unmapLoop 2 (fun _ => some ["x"]) 2 7 0 =
        ([REvent.readTop true, REvent.checkpoint, REvent.readGate true,
            REvent.listCold true] ++
          passAux REvent.unmapFilter ["x"] 0 ++ [REvent.cleanupList]) ::
          unmapLoop 2 (fun _ => some ["x"]) 0 (tickSucc 7) 1)
    ∧ (unmapLoop 2 (fun _ => some ["x"]) 1 7 0 =
        [[REvent.readTop true, REvent.checkpoint, REvent.readGate false],
         [REvent.readTop false]])
    ∧ (memLoop 2 100 50 (fun j => 200 - j * 60) (fun _ => some ["a", "b", "c"]) 1 0 0 0 =
        (memLoop 2 100 50 (fun j => 200 - j * 60) (fun _ => some ["a", "b", "c"])
            0 (tickSucc 0) 0 0).map
          (fun tr => [REvent.readTop true, REvent.checkpoint] :: tr))
    ∧ (memLoop 2 100 50 (fun _ => 80) (fun _ => some ["a"]) 2 7 0 0 =
        (memLoop 2 100 50 (fun _ => 80) (fun _ => some ["a"]) 0 (tickSucc 7) 0 1).map
          (fun tr =>
            [REvent.readTop true, REvent.checkpoint, REvent.readGate true] :: tr))
    ∧ (memLoop 2 100 50 (fun j => 200 - j * 60) (fun _ => some ["a", "b", "c"]) 2 7 0 0 =
        (memLoop 2 100 50 (fun j => 200 - j * 60) (fun _ => some ["a", "b", "c"])
            0 (tickSucc 7) 1 4).map
          (fun tr =>
            ([REvent.readTop true, REvent.checkpoint, REvent.readGate true,
              REvent.listFilters true] ++
              [REvent.flushUnmapFilter "a", REvent.flushUnmapFilter "b",
                REvent.flushUnmapFilter "c"] ++ [REvent.cleanupList]) :: tr))
    ∧ (memLoop 2 100 50 (fun _ => 80) (fun _ => some ["a"]) 1 7 0 0 =
        some [[REvent.readTop true, REvent.checkpoint, REvent.readGate false],
              [REvent.readTop false]]) := by
  obtain ⟨h1, h2, h3, h4, h5, h6, h7, h8, h9, h10, h11, h12, h13⟩ :=
    c3_tick_schedule 2 (by decide)
  exact ⟨h1, h2 8,
    h3 (fun _ => some ["x"]) 0 0 0 (by decide),
    h4 (fun _ => some ["x"]) 0 7 0 ["x"] (by decide) rfl,
    h5 (fun _ => some ["x"]) 7 0 (by decide),
    h6 0 (by decide),
    h7 (fun _ => some ["x"]) 0 0 0 (by decide),
    h8 (fun _ => some ["x"]) 0 7 0 ["x"] (by decide) rfl,
    h9 (fun _ => some ["x"]) 7 0 (by decide),
    h10 100 50 (fun j => 200 - j * 60) (fun _ => some ["a", "b", "c"]) 0 0 0 0
      (by decide),
    h11 100 50 (fun _ => 80) (fun _ => some ["a"]) 0 7 0 0 (by decide) (by decide),
    h12 100 50 (fun j => 200 - j * 60) (fun _ => some ["a", "b", "c"]) 0 7 0 0
      ["a", "b", "c"]
      [REvent.flushUnmapFilter "a", REvent.flushUnmapFilter "b",
        REvent.flushUnmapFilter "c"] 4 (by decide) (by decide) rfl (by decide),
    h13 100 50 (fun _ => 80) (fun _ => some ["a"]) 7 0 0 (by decide)⟩

/-- C6: for every worker, no enumeration, flush, unmap or release call ever
occurs in a loop iteration after one that observed the cancellation flag as
set; every trace ends with the loop-top read observing cancellation (the loop
terminates, within at most remaining-reads-plus-one iterations); and a
cold-unmap pass whose gate read was the last positive read still completes in
full — every enumerated filter gets its unmap call and the list is released —
before the loop exits. -/
theorem c6_cancellation_stops_new_passes :
    (∀ (I : Nat) (enum : Nat → Option (List String)) (r ticks e : Nat),
      noActionAfterCancel (unmapLoop I enum r ticks e) = true
      ∧ endsWithExit (unmapLoop I enum r ticks e) = true
      ∧ (unmapLoop I enum r ticks e).length ≤ r + 1)
    ∧ (∀ (I : Nat) (enum : Nat → Option (List String)) (ticks e : Nat) (l : List String),
        tickSucc ticks % SEC_TO_TICKS I = 0 → enum e = some l →
        unmapLoop I enum 2 ticks e =
          [[REvent.readTop true, REvent.checkpoint, REvent.readGate true,
              REvent.listCold true] ++
            passAux REvent.unmapFilter l 0 ++ [REvent.cleanupList],
           [REvent.readTop false]]
        ∧ ∀ f ∈ l, REvent.unmapFilter f ∈ passAux REvent.unmapFilter l 0)
    ∧ (∀ (I : Nat) (enum : Nat → Option (List String)) (r ticks e : Nat),
      noActionAfterCancel (flushLoop I enum r ticks e) = true
      ∧ endsWithExit (flushLoop I enum r ticks e) = true)
    ∧ (∀ (I mx sf : Nat) (rss : Nat → Nat) (enum : Nat → Option (List String))
        (r ticks e s : Nat) (tr : List (List REvent)),
        memLoop I mx sf rss enum r ticks e s = some tr →
        noActionAfterCancel tr = true ∧ endsWithExit tr = true) := by
  refine ⟨?_, ?_, ?_, ?_⟩
  · intro I enum r ticks e
    exact ⟨unmapLoop_noActionAfterCancel I enum r ticks e,
      unmapLoop_endsWithExit I enum r ticks e, unmapLoop_length_le I enum r ticks e⟩
  · intro I enum ticks e l h henum
    constructor
    · rw [show (2 : Nat) = 0 + 2 from rfl, unmapLoop_fire_some I enum 0 ticks e l h henum,
        unmapLoop_zero]
    · intro f hf
      exact mem_passAux REvent.unmapFilter l 0 f hf
  · intro I enum r ticks e
    exact ⟨flushLoop_noActionAfterCancel I enum r ticks e,
      flushLoop_endsWithExit I enum r ticks e⟩
  · intro I mx sf rss enum r ticks e s tr htr
    exact ⟨memLoop_noActionAfterCancel I mx sf rss enum r ticks e s tr htr,
      memLoop_endsWithExit I mx sf rss enum r ticks e s tr htr⟩

/-- C6 witness: a cold-unmap pass over "a","b" started on the last positive
read completes and then the loop exits; "b" is unmapped during it; and a
cancelled memory-check run contains no action after the cancellation read. -/
theorem c6_witness :
    (unmapLoop 1 (fun _ => some ["a", "b"]) 2 3 0 =
      [[REvent.readTop true, REvent.checkpoint, REvent.readGate true,
          REvent.listCold true] ++
        passAux REvent.unmapFilter ["a", "b"] 0 ++ [REvent.cleanupList],
       [REvent.readTop false]])
    ∧ REvent.unmapFilter "b" ∈ passAux REvent.unmapFilter ["a", "b"] 0
    ∧ noActionAfterCancel [[REvent.readTop true, REvent.checkpoint],
        [REvent.readTop false]] = true := by
  have h := c6_cancellation_stops_new_passes.2.1 1 (fun _ => some ["a", "b"]) 3 0
    ["a", "b"] (by decide) rfl
  have h2 := c6_cancellation_stops_new_passes.2.2.2 1 100 50 (fun _ => 80)
    (fun _ => some []) 1 0 0 0 ([[REvent.readTop true, REvent.checkpoint],
      [REvent.readTop false]]) rfl
  exact ⟨h.1, h.2 "b" (by decide), h2.1⟩

/-- C8: a cycle whose enumeration fails makes no flush, unmap, flush-and-unmap
or release call — its iteration is exactly the reads, the wake checkpoint and
the failed enumeration — and the loop continues to the next wake; a later
cycle whose enumeration succeeds proceeds normally with the full pass and the
release.  This holds for all three workers. -/
theorem c8_enum_failure_is_skipped_cycle :
    (∀ (I : Nat) (enum : Nat → Option (List String)) (r ticks e : Nat),
        tickSucc ticks % SEC_TO_TICKS I = 0 → enum e = none →
        flushLoop I enum (r + 2) ticks e =
          [REvent.readTop true, REvent.checkpoint, REvent.readGate true,
            REvent.listFilters false] :: flushLoop I enum r (tickSucc ticks) (e + 1))
    ∧ ([REvent.readTop true, REvent.checkpoint, REvent.readGate true,
        REvent.listFilters false].filter isMutCall = [])
    ∧ (∀ (I : Nat) (enum : Nat → Option (List String)) (r ticks e : Nat),
        tickSucc ticks % SEC_TO_TICKS I = 0 → enum e = none →
        unmapLoop I enum (r + 2) ticks e =
          [REvent.readTop true, REvent.checkpoint, REvent.readGate true,
            REvent.listCold false] :: unmapLoop I enum r (tickSucc ticks) (e + 1))
    ∧ ([REvent.readTop true, REvent.checkpoint, REvent.readGate true,
        REvent.listCold false].filter isMutCall = [])
    ∧ (∀ (I mx sf : Nat) (rss : Nat → Nat) (enum : Nat → Option (List String))
        (r ticks e s : Nat),
        tickSucc ticks % SEC_TO_TICKS I = 0 → mx < rss s → enum e = none →
        memLoop I mx sf rss enum (r + 2) ticks e s =
          (memLoop I mx sf rss enum r (tickSucc ticks) (e + 1) (s + 1)).map
            (fun tr =>
              [REvent.readTop true, REvent.checkpoint, REvent.readGate true,
                REvent.listFilters false] :: tr))
    ∧ (∀ (I : Nat) (enum : Nat → Option (List String)) (r ticks e : Nat)
        (l : List String),
        tickSucc ticks % SEC_TO_TICKS I = 0 → enum e = some l →
        flushLoop I enum (r + 2) ticks e =
          ([REvent.readTop true, REvent.checkpoint, REvent.readGate true,
              REvent.listFilters true] ++
            passAux REvent.flushFilter l 0 ++ [REvent.cleanupList]) ::
            flushLoop I enum r (tickSucc ticks) (e + 1))
    ∧ (∀ (I : Nat) (enum : Nat → Option (List String)) (r ticks e : Nat)
        (l : List String),
        tickSucc ticks % SEC_TO_TICKS I = 0 → enum e = some l →
        unmapLoop I enum (r + 2) ticks e =
          ([REvent.readTop true, REvent.checkpoint, REvent.readGate true,
              REvent.listCold true] ++
            passAux REvent.unmapFilter l 0 ++ [REvent.cleanupList]) ::
            unmapLoop I enum r (tickSucc ticks) (e + 1)) := by
  refine ⟨?_, rfl, ?_, rfl, ?_, ?_, ?_⟩
  · intro I enum r ticks e h henum
    exact flushLoop_fire_none I enum r ticks e h henum
  · intro I enum r ticks e h henum
    exact unmapLoop_fire_none I enum r ticks e h henum
  · intro I mx sf rss enum r ticks e s h hhigh henum
    exact memLoop_fire_enumFail I mx sf rss enum r ticks e s h hhigh henum
  · intro I enum r ticks e l h henum
    exact flushLoop_fire_some I enum r ticks e l h henum
  · intro I enum r ticks e l h henum
    exact unmapLoop_fire_some I enum r ticks e l h henum

/-- C8 witness: a failing enumeration cycle of each worker reduced at a
concrete fired wake, and a succeeding flush cycle at the same wake. -/
theorem c8_witness :
    (flushLoop 1 (fun _ => none) 2 3 0 =
      [REvent.readTop true, REvent.checkpoint, REvent.readGate true,
        REvent.listFilters false] :: flushLoop 1 (fun _ => none) 0 (tickSucc 3) 1)
    ∧ (unmapLoop 1 (fun _ => none) 2 3 0 =
      [REvent.readTop true, REvent.checkpoint, REvent.readGate true,
        REvent.listCold false] :: unmapLoop 1 (fun _ => none) 0 (tickSucc 3) 1)
    ∧ (memLoop 1 100 50 (fun _ => 200) (fun _ => none) 2 3 0 0 =
      (memLoop 1 100 50 (fun _ => 200) (fun _ => none) 0 (tickSucc 3) 1 1).map
        (fun tr =>
          [REvent.readTop true, REvent.checkpoint, REvent.readGate true,
            REvent.listFilters false] :: tr))
    ∧ (flushLoop 1 (fun _ => some ["a"]) 2 3 0 =
      ([REvent.readTop true, REvent.checkpoint, REvent.readGate true,
          REvent.listFilters true] ++
        passAux REvent.flushFilter ["a"] 0 ++ [REvent.cleanupList]) ::
        flushLoop 1 (fun _ => some ["a"]) 0 (tickSucc 3) 1) :=
  ⟨c8_enum_failure_is_skipped_cycle.1 1 (fun _ => none) 0 3 0 (by decide) rfl,
   c8_enum_failure_is_skipped_cycle.2.2.1 1 (fun _ => none) 0 3 0 (by decide) rfl,
   c8_enum_failure_is_skipped_cycle.2.2.2.2.1 1 100 50 (fun _ => 200) (fun _ => none)
     0 3 0 0 (by decide) (by decide) rfl,
   c8_enum_failure_is_skipped_cycle.2.2.2.2.2.1 1 (fun _ => some ["a"]) 0 3 0 ["a"]
     (by decide) rfl⟩

/-- C10: with the tick counter starting at zero and incremented before the
modulo test, none of the first `SEC_TO_TICKS I - 1` wakes of any worker
performs its maintenance action — each contributes only the loop-top read and
the wake checkpoint — and the first interval-triggered action happens exactly
on wake number `SEC_TO_TICKS I` (that is, `I` seconds after startup). -/
theorem c10_first_action_on_wake_4I (I : Nat) (hI : 0 < I)
    (hU : SEC_TO_TICKS I < UINT_MAX_SUCC) (enum : Nat → Option (List String))
    (l : List String) (henum : enum 0 = some l) (r mx sf : Nat) (rss : Nat → Nat)
    (hlow : ¬ mx < rss 0) :
    (flushLoop I enum (r + 2 + (SEC_TO_TICKS I - 1)) 0 0 =
      List.replicate (SEC_TO_TICKS I - 1) [REvent.readTop true, REvent.checkpoint] ++
        ([REvent.readTop true, REvent.checkpoint, REvent.readGate true,
            REvent.listFilters true] ++ passAux REvent.flushFilter l 0 ++
          [REvent.cleanupList]) :: flushLoop I enum r (SEC_TO_TICKS I) 1)
    ∧ (unmapLoop I enum (r + 2 + (SEC_TO_TICKS I - 1)) 0 0 =
      List.replicate (SEC_TO_TICKS I - 1) [REvent.readTop true, REvent.checkpoint] ++
        ([REvent.readTop true, REvent.checkpoint, REvent.readGate true,
            REvent.listCold true] ++ passAux REvent.unmapFilter l 0 ++
          [REvent.cleanupList]) :: unmapLoop I enum r (SEC_TO_TICKS I) 1)
    ∧ (memLoop I mx sf rss enum (r + 2 + (SEC_TO_TICKS I - 1)) 0 0 0 =
      (memLoop I mx sf rss enum r (SEC_TO_TICKS I) 0 1).map
        (fun tr =>
          List.replicate (SEC_TO_TICKS I - 1)
              [REvent.readTop true, REvent.checkpoint] ++
            [REvent.readTop true, REvent.checkpoint, REvent.readGate true] :: tr)) := by
  have hT : 0 < SEC_TO_TICKS I := by
    simp only [SEC_TO_TICKS]; omega
  have hskip : ∀ j, 0 < j → j ≤ 0 + (SEC_TO_TICKS I - 1) → j % SEC_TO_TICKS I ≠ 0 := by
    intro j h1 h2 hmod
    have := Nat.le_of_dvd h1 (Nat.dvd_of_mod_eq_zero hmod)
    omega
  have hUm : 0 + (SEC_TO_TICKS I - 1) < UINT_MAX_SUCC := by omega
  have ht : tickSucc (SEC_TO_TICKS I - 1) = SEC_TO_TICKS I := by
    rw [tickSucc, show SEC_TO_TICKS I - 1 + 1 = SEC_TO_TICKS I from by omega]
    exact Nat.mod_eq_of_lt hU
  have hfire : tickSucc (SEC_TO_TICKS I - 1) % SEC_TO_TICKS I = 0 := by
    rw [ht]; exact Nat.mod_self _
  refine ⟨?_, ?_, ?_⟩
  · rw [flushLoop_skipRun I enum (SEC_TO_TICKS I - 1) (r + 2) 0 0 hskip hUm]
    simp only [Nat.zero_add]
    rw [flushLoop_fire_some I enum r (SEC_TO_TICKS I - 1) 0 l hfire henum, ht]
  · rw [unmapLoop_skipRun I enum (SEC_TO_TICKS I - 1) (r + 2) 0 0 hskip hUm]
    simp only [Nat.zero_add]
    rw [unmapLoop_fire_some I enum r (SEC_TO_TICKS I - 1) 0 l hfire henum, ht]
  · rw [memLoop_skipRun I mx sf rss enum (SEC_TO_TICKS I - 1) (r + 2) 0 0 0 hskip hUm]
    simp only [Nat.zero_add]
    rw [memLoop_fire_low I mx sf rss enum r (SEC_TO_TICKS I - 1) 0 0 hfire hlow, ht,
      Option.map_map]
    rfl

/-- C10 witness: with a 1 second interval (4 ticks) the three workers skip
wakes 1 to 3 and first act on wake 4. -/
theorem c10_witness :
    (flushLoop 1 (fun _ => some ["a"]) (0 + 2 + (SEC_TO_TICKS 1 - 1)) 0 0 =
      List.replicate (SEC_TO_TICKS 1 - 1) [REvent.readTop true, REvent.checkpoint] ++
        ([REvent.readTop true, REvent.checkpoint, REvent.readGate true,
            REvent.listFilters true] ++ passAux REvent.flushFilter ["a"] 0 ++
          [REvent.cleanupList]) :: flushLoop 1 (fun _ => some ["a"]) 0 (SEC_TO_TICKS 1) 1)
    ∧ (unmapLoop 1 (fun _ => some ["a"]) (0 + 2 + (SEC_TO_TICKS 1 - 1)) 0 0 =
      List.replicate (SEC_TO_TICKS 1 - 1) [REvent.readTop true, REvent.checkpoint] ++
        ([REvent.readTop true, REvent.checkpoint, REvent.readGate true,
            REvent.listCold true] ++ passAux REvent.unmapFilter ["a"] 0 ++
          [REvent.cleanupList]) :: unmapLoop 1 (fun _ => some ["a"]) 0 (SEC_TO_TICKS 1) 1)
    ∧ (memLoop 1 100 50 (fun _ => 80) (fun _ => some ["a"])
        (0 + 2 + (SEC_TO_TICKS 1 - 1)) 0 0 0 =
      (memLoop 1 100 50 (fun _ => 80) (fun _ => some ["a"]) 0 (SEC_TO_TICKS 1) 0 1).map
        (fun tr =>
          List.replicate (SEC_TO_TICKS 1 - 1)
              [REvent.readTop true, REvent.checkpoint] ++
            [REvent.readTop true, REvent.checkpoint, REvent.readGate true] :: tr)) :=
  c10_first_action_on_wake_4I 1 (by decide) (by decide) (fun _ => some ["a"]) ["a"] rfl
    0 100 50 (fun _ => 80) (by decide)
